import Mathlib

/-!
Shallow embedding of the himada fetch/clamp/save pipeline
(`src/himada/app.py`): the `enforce_yahoo_limits` clamping function and the
`fetch_and_save_csv` per-ticker fetch-and-export loop, with the external
yfinance provider and the filesystem modelled as explicit oracles.
-/

/-- The whitespace characters stripped by Python's `str.strip()`. -/
def pyIsSpace (c : Char) : Bool :=
  c = ' ' || c = '\t' || c = '\n' || c = '\r' || c = '\x0b' || c = '\x0c'

/-- Python `t.strip()`: remove leading and trailing whitespace. -/
def pyStrip (s : String) : String :=
  ⟨((s.data.dropWhile pyIsSpace).reverse.dropWhile pyIsSpace).reverse⟩

/-- Python `ticker.replace('/', '_')` (single-character pattern, so a
character map). -/
def replaceSlash (s : String) : String :=
  ⟨s.data.map (fun c => if c = '/' then '_' else c)⟩

/-- Python f-string rendering of an optional string: `None` prints as
`"None"`. -/
def pyShowOpt : Option String → String
  | none => "None"
  | some s => s

/-- The `DownloadConfig` dataclass.  `out_dir` is modelled by its path
string; optional fields default to `none` as in the dataclass. -/
structure DownloadConfig where
  tickers : List String
  interval : String
  include_actions : Bool
  auto_adjust : Bool
  out_dir : String
  mode : String
  start : Option String := none
  «end» : Option String := none
  period : Option String := none
deriving DecidableEq, Repr

/-- The set `{"1m", "2m", "5m", "15m", "30m", "60m", "90m", "1h"}` used for
the intraday test in `enforce_yahoo_limits`. -/
def intradayIntervals : List String :=
  ["1m", "2m", "5m", "15m", "30m", "60m", "90m", "1h"]

/-- The set `longish = {None, "max", "ytd", "10y", "5y", "2y", "1y", "6mo",
"3mo"}` from `enforce_yahoo_limits` (it literally contains Python `None`). -/
def longishSet : List (Option String) :=
  [none, some "max", some "ytd", some "10y", some "5y", some "2y",
   some "1y", some "6mo", some "3mo"]

/-- `enforce_yahoo_limits(interval, requested_mode, requested_period, log)`.
The `log` side effect is returned as the list of lines emitted. -/
def enforce_yahoo_limits (interval requested_mode : String)
    (requested_period : Option String) :
    (String × Option String) × List String :=
  if interval ∈ intradayIntervals then
    if (requested_mode = "max" ∨ requested_mode = "period") ∧
        requested_period ∈ longishSet then
      if interval = "1m" then
        (("period", some "7d"),
         ["⚠️ Interval=1m is limited by Yahoo; clamping period to 7d."])
      else
        (("period", some "60d"),
         ["⚠️ Intraday intervals are limited by Yahoo; clamping period to 60d."])
    else ((requested_mode, requested_period), [])
  else ((requested_mode, requested_period), [])

/-- The shape of a `tk.history(...)` call: either explicit start/end dates or
a named period, plus interval and the two flags. -/
inductive HistoryCall where
  | byRange (start «end» : Option String) (interval : String)
      (actions auto_adjust : Bool)
  | byPeriod (period interval : String) (actions auto_adjust : Bool)
deriving DecidableEq, Repr

/-- Outcome of a provider call: an exception, Python `None`, or a dataframe
abstracted by its row count (the pipeline only observes emptiness). -/
inductive FetchOutcome where
  | raised (msg : String)
  | noneResult
  | frame (rows : Nat)
deriving DecidableEq, Repr

/-- `cfg.period or "1mo"`: Python `or` treats both `None` and the empty
string as falsy. -/
def effectivePeriod (cfg : DownloadConfig) : String :=
  match cfg.period with
  | none => "1mo"
  | some s => if s = "" then "1mo" else s

/-- The provider call and `file_tag` chosen by the mode dispatch in
`fetch_and_save_csv` (lines 81–108 of app.py). -/
def historyCallFor (cfg : DownloadConfig) : HistoryCall × String :=
  if cfg.mode = "range" then
    (.byRange cfg.start cfg.«end» cfg.interval cfg.include_actions
       cfg.auto_adjust,
     pyShowOpt cfg.start ++ "_" ++ pyShowOpt cfg.«end»)
  else if cfg.mode = "period" then
    (.byPeriod (effectivePeriod cfg) cfg.interval cfg.include_actions
       cfg.auto_adjust,
     effectivePeriod cfg)
  else
    (.byPeriod "max" cfg.interval cfg.include_actions cfg.auto_adjust, "max")

/-- The `Fetching: ...` progress line. -/
def fetchingLine (cfg : DownloadConfig) (ticker : String) : String :=
  "Fetching: " ++ ticker ++ " | interval=" ++ cfg.interval ++
    " | mode=" ++ cfg.mode

/-- The output file name `<sanitized ticker>_<interval>_<tag>.csv`. -/
def csvFileName (interval ticker tag : String) : String :=
  replaceSlash ticker ++ "_" ++ interval ++ "_" ++ tag ++ ".csv"

/-- `cfg.out_dir / filename`, the full output path. -/
def outFileFor (cfg : DownloadConfig) (ticker tag : String) : String :=
  cfg.out_dir ++ "/" ++ csvFileName cfg.interval ticker tag

/-- One iteration of the ticker loop of `fetch_and_save_csv`.  `provider`
models `yf.Ticker(t).history(...)`; `writeErr` models `df.to_csv`, returning
`some msg` when the write raises.  Result: (log lines, files written). -/
def processTicker (provider : String → HistoryCall → FetchOutcome)
    (writeErr : String → Option String) (cfg : DownloadConfig)
    (t : String) : List String × List String :=
  if pyStrip t = "" then ([], [])
  else
    match provider (pyStrip t) (historyCallFor cfg).1 with
    | .raised msg =>
        ([fetchingLine cfg (pyStrip t),
          "❌ Error fetching " ++ pyStrip t ++ ": " ++ msg], [])
    | .noneResult =>
        ([fetchingLine cfg (pyStrip t),
          "⚠️ No data returned for " ++ pyStrip t ++ "."], [])
    | .frame rows =>
        if rows = 0 then
          ([fetchingLine cfg (pyStrip t),
            "⚠️ No data returned for " ++ pyStrip t ++ "."], [])
        else
          match writeErr (outFileFor cfg (pyStrip t) (historyCallFor cfg).2) with
          | none =>
              ([fetchingLine cfg (pyStrip t),
                "✅ Saved: " ++ outFileFor cfg (pyStrip t) (historyCallFor cfg).2],
               [outFileFor cfg (pyStrip t) (historyCallFor cfg).2])
          | some m =>
              ([fetchingLine cfg (pyStrip t),
                "❌ Error saving " ++ pyStrip t ++ ": " ++ m], [])

/-- The config after the in-place update
`cfg.mode, cfg.period = enforce_yahoo_limits(...)` (line 69 of app.py). -/
def effectiveConfig (cfg : DownloadConfig) : DownloadConfig :=
  { cfg with
    mode := (enforce_yahoo_limits cfg.interval cfg.mode cfg.period).1.1
    period := (enforce_yahoo_limits cfg.interval cfg.mode cfg.period).1.2 }

/-- Log lines contributed by a list of tickers. -/
def tickerLogs (provider : String → HistoryCall → FetchOutcome)
    (writeErr : String → Option String) (cfg : DownloadConfig)
    (ts : List String) : List String :=
  (ts.map fun t => (processTicker provider writeErr cfg t).1).flatten

/-- Files written by a list of tickers. -/
def tickerFiles (provider : String → HistoryCall → FetchOutcome)
    (writeErr : String → Option String) (cfg : DownloadConfig)
    (ts : List String) : List String :=
  (ts.map fun t => (processTicker provider writeErr cfg t).2).flatten

/-- `fetch_and_save_csv(cfg, log)`: clamp once, then loop over tickers.
Returns (final config, log lines, files written).  Directory creation is a
filesystem effect outside the model. -/
def fetch_and_save_csv (provider : String → HistoryCall → FetchOutcome)
    (writeErr : String → Option String) (cfg : DownloadConfig) :
    DownloadConfig × List String × List String :=
  let cfg2 := effectiveConfig cfg
  (cfg2,
   (enforce_yahoo_limits cfg.interval cfg.mode cfg.period).2 ++
     tickerLogs provider writeErr cfg2 cfg2.tickers,
   tickerFiles provider writeErr cfg2 cfg2.tickers)

/-- C1: for every intraday interval, when the requested mode is `period` or
`max` and the requested period lies in the long set, `enforce_yahoo_limits`
clamps to mode `period` with period `7d` for interval `1m` and `60d` for
every other intraday interval, emitting exactly one warning line. -/
theorem enforce_clamps_intraday_long (interval mode : String)
    (period : Option String)
    (hi : interval ∈ intradayIntervals)
    (hm : mode = "period" ∨ mode = "max")
    (hp : period ∈ longishSet) :
    enforce_yahoo_limits interval mode period =
      if interval = "1m" then
        (("period", some "7d"),
         ["⚠️ Interval=1m is limited by Yahoo; clamping period to 7d."])
      else
        (("period", some "60d"),
         ["⚠️ Intraday intervals are limited by Yahoo; clamping period to 60d."]) := by
  unfold enforce_yahoo_limits
  rw [if_pos hi, if_pos ⟨hm.symm, hp⟩]

/-- Witness for C1 at interval `5m`, mode `period`, period `ytd`, and at
interval `1m`, mode `max`, period absent. -/
theorem enforce_clamps_intraday_long_witness :
    ("5m" ∈ intradayIntervals ∧ (some "ytd") ∈ longishSet ∧
      enforce_yahoo_limits "5m" "period" (some "ytd") =
        (("period", some "60d"),
         ["⚠️ Intraday intervals are limited by Yahoo; clamping period to 60d."])) ∧
    ("1m" ∈ intradayIntervals ∧ (none : Option String) ∈ longishSet ∧
      enforce_yahoo_limits "1m" "max" none =
        (("period", some "7d"),
         ["⚠️ Interval=1m is limited by Yahoo; clamping period to 7d."])) := by
  constructor
  · refine ⟨by decide, by decide, ?_⟩
    have h := enforce_clamps_intraday_long "5m" "period" (some "ytd")
      (by decide) (Or.inl rfl) (by decide)
    simpa using h
  · refine ⟨by decide, by decide, ?_⟩
    have h := enforce_clamps_intraday_long "1m" "max" none
      (by decide) (Or.inr rfl) (by decide)
    simpa using h

/-- C2: for every non-intraday interval, `enforce_yahoo_limits` returns the
requested (mode, period) unchanged and emits no log line. -/
theorem enforce_id_non_intraday (interval mode : String)
    (period : Option String) (hi : interval ∉ intradayIntervals) :
    enforce_yahoo_limits interval mode period = ((mode, period), []) := by
  unfold enforce_yahoo_limits
  rw [if_neg hi]

/-- Witness for C2 at interval `1d`, mode `max`, period `max`. -/
theorem enforce_id_non_intraday_witness :
    "1d" ∉ intradayIntervals ∧
    enforce_yahoo_limits "1d" "max" (some "max") =
      (("max", some "max"), []) :=
  ⟨by decide, enforce_id_non_intraday "1d" "max" (some "max") (by decide)⟩

/-- C3: for every intraday interval with requested mode `range`,
`enforce_yahoo_limits` returns the inputs unchanged (no clamping of explicit
date ranges) and emits no log line, whatever the requested period. -/
theorem enforce_id_range_mode (interval : String) (period : Option String)
    (hi : interval ∈ intradayIntervals) :
    enforce_yahoo_limits interval "range" period = (("range", period), []) := by
  unfold enforce_yahoo_limits
  rw [if_pos hi, if_neg]
  rintro ⟨hm, -⟩
  rcases hm with h | h
  · exact (by decide : ("range" : String) ≠ "max") h
  · exact (by decide : ("range" : String) ≠ "period") h

/-- Witness for C3 at interval `1m`, period `max` (which the long set
contains, yet range mode passes through). -/
theorem enforce_id_range_mode_witness :
    "1m" ∈ intradayIntervals ∧
    enforce_yahoo_limits "1m" "range" (some "max") =
      (("range", some "max"), []) :=
  ⟨by decide, enforce_id_range_mode "1m" (some "max") (by decide)⟩

/-- C10: `enforce_yahoo_limits` is idempotent: applied to its own output
(with the same interval) it returns that output unchanged, with no further
warning — the clamped periods `7d` and `60d` are not in the long set. -/
theorem enforce_idempotent (interval mode : String) (period : Option String) :
    enforce_yahoo_limits interval
        (enforce_yahoo_limits interval mode period).1.1
        (enforce_yahoo_limits interval mode period).1.2 =
      ((enforce_yahoo_limits interval mode period).1, []) := by
  by_cases hi : interval ∈ intradayIntervals
  · by_cases hc : (mode = "max" ∨ mode = "period") ∧ period ∈ longishSet
    · have h1 : enforce_yahoo_limits interval mode period =
          if interval = "1m" then
            (("period", some "7d"),
             ["⚠️ Interval=1m is limited by Yahoo; clamping period to 7d."])
          else
            (("period", some "60d"),
             ["⚠️ Intraday intervals are limited by Yahoo; clamping period to 60d."]) := by
        unfold enforce_yahoo_limits
        rw [if_pos hi, if_pos hc]
      by_cases h1m : interval = "1m"
      · rw [h1, if_pos h1m]
        unfold enforce_yahoo_limits
        rw [if_pos hi, if_neg]
        rintro ⟨-, hmem⟩
        exact (by decide : (some "7d" : Option String) ∉ longishSet) hmem
      · rw [h1, if_neg h1m]
        unfold enforce_yahoo_limits
        rw [if_pos hi, if_neg]
        rintro ⟨-, hmem⟩
        exact (by decide : (some "60d" : Option String) ∉ longishSet) hmem
    · have h1 : enforce_yahoo_limits interval mode period =
          ((mode, period), []) := by
        unfold enforce_yahoo_limits
        rw [if_pos hi, if_neg hc]
      rw [h1]
      exact h1
  · have h1 : enforce_yahoo_limits interval mode period =
        ((mode, period), []) := by
      unfold enforce_yahoo_limits
      rw [if_neg hi]
    rw [h1]
    exact h1

/-- The in-place mode/period update leaves `tickers` untouched. -/
theorem effectiveConfig_tickers (cfg : DownloadConfig) :
    (effectiveConfig cfg).tickers = cfg.tickers := rfl

theorem tickerLogs_append (provider : String → HistoryCall → FetchOutcome)
    (writeErr : String → Option String) (cfg : DownloadConfig)
    (l m : List String) :
    tickerLogs provider writeErr cfg (l ++ m) =
      tickerLogs provider writeErr cfg l ++ tickerLogs provider writeErr cfg m := by
  simp [tickerLogs]

theorem tickerLogs_cons (provider : String → HistoryCall → FetchOutcome)
    (writeErr : String → Option String) (cfg : DownloadConfig)
    (t : String) (ts : List String) :
    tickerLogs provider writeErr cfg (t :: ts) =
      (processTicker provider writeErr cfg t).1 ++
        tickerLogs provider writeErr cfg ts := by
  simp [tickerLogs]

theorem tickerFiles_append (provider : String → HistoryCall → FetchOutcome)
    (writeErr : String → Option String) (cfg : DownloadConfig)
    (l m : List String) :
    tickerFiles provider writeErr cfg (l ++ m) =
      tickerFiles provider writeErr cfg l ++ tickerFiles provider writeErr cfg m := by
  simp [tickerFiles]

theorem tickerFiles_cons (provider : String → HistoryCall → FetchOutcome)
    (writeErr : String → Option String) (cfg : DownloadConfig)
    (t : String) (ts : List String) :
    tickerFiles provider writeErr cfg (t :: ts) =
      (processTicker provider writeErr cfg t).2 ++
        tickerFiles provider writeErr cfg ts := by
  simp [tickerFiles]

/-- A blank (all-whitespace) entry contributes nothing. -/
theorem processTicker_blank (provider : String → HistoryCall → FetchOutcome)
    (writeErr : String → Option String) (cfg : DownloadConfig)
    (t : String) (hb : pyStrip t = "") :
    processTicker provider writeErr cfg t = ([], []) := by
  unfold processTicker
  rw [if_pos hb]

/-- A provider exception yields the fetch line plus one error line and no
file. -/
theorem processTicker_raised (provider : String → HistoryCall → FetchOutcome)
    (writeErr : String → Option String) (cfg : DownloadConfig)
    (t msg : String) (hne : pyStrip t ≠ "")
    (h : provider (pyStrip t) (historyCallFor cfg).1 = .raised msg) :
    processTicker provider writeErr cfg t =
      ([fetchingLine cfg (pyStrip t),
        "❌ Error fetching " ++ pyStrip t ++ ": " ++ msg], []) := by
  unfold processTicker
  rw [if_neg hne, h]

/-- A `None` provider result yields the fetch line plus one warning and no
file. -/
theorem processTicker_noneResult (provider : String → HistoryCall → FetchOutcome)
    (writeErr : String → Option String) (cfg : DownloadConfig)
    (t : String) (hne : pyStrip t ≠ "")
    (h : provider (pyStrip t) (historyCallFor cfg).1 = .noneResult) :
    processTicker provider writeErr cfg t =
      ([fetchingLine cfg (pyStrip t),
        "⚠️ No data returned for " ++ pyStrip t ++ "."], []) := by
  unfold processTicker
  rw [if_neg hne, h]

/-- A zero-row dataframe yields the fetch line plus one warning and no
file. -/
theorem processTicker_emptyFrame (provider : String → HistoryCall → FetchOutcome)
    (writeErr : String → Option String) (cfg : DownloadConfig)
    (t : String) (hne : pyStrip t ≠ "")
    (h : provider (pyStrip t) (historyCallFor cfg).1 = .frame 0) :
    processTicker provider writeErr cfg t =
      ([fetchingLine cfg (pyStrip t),
        "⚠️ No data returned for " ++ pyStrip t ++ "."], []) := by
  unfold processTicker
  rw [if_neg hne, h]
  simp

/-- A ticker whose fetch and write both succeed produces exactly its output
file. -/
theorem processTicker_saved (provider : String → HistoryCall → FetchOutcome)
    (writeErr : String → Option String) (cfg : DownloadConfig)
    (t : String) (rows : Nat) (hne : pyStrip t ≠ "")
    (h : provider (pyStrip t) (historyCallFor cfg).1 = .frame rows)
    (hr : rows ≠ 0)
    (hw : writeErr (outFileFor cfg (pyStrip t) (historyCallFor cfg).2) = none) :
    processTicker provider writeErr cfg t =
      ([fetchingLine cfg (pyStrip t),
        "✅ Saved: " ++ outFileFor cfg (pyStrip t) (historyCallFor cfg).2],
       [outFileFor cfg (pyStrip t) (historyCallFor cfg).2]) := by
  unfold processTicker
  rw [if_neg hne, h]
  simp [hr, hw]

/-- A failing CSV write yields the fetch line plus one error line and no
file. -/
theorem processTicker_saveError (provider : String → HistoryCall → FetchOutcome)
    (writeErr : String → Option String) (cfg : DownloadConfig)
    (t msg : String) (rows : Nat) (hne : pyStrip t ≠ "")
    (h : provider (pyStrip t) (historyCallFor cfg).1 = .frame rows)
    (hr : rows ≠ 0)
    (hw : writeErr (outFileFor cfg (pyStrip t) (historyCallFor cfg).2) = some msg) :
    processTicker provider writeErr cfg t =
      ([fetchingLine cfg (pyStrip t),
        "❌ Error saving " ++ pyStrip t ++ ": " ++ msg], []) := by
  unfold processTicker
  rw [if_neg hne, h]
  simp [hr, hw]

/-- Splitting the pipeline's log around one distinguished ticker. -/
theorem fetch_logs_split (provider : String → HistoryCall → FetchOutcome)
    (writeErr : String → Option String) (cfg : DownloadConfig)
    (pre post : List String) (t : String)
    (ht : cfg.tickers = pre ++ t :: post) :
    (fetch_and_save_csv provider writeErr cfg).2.1 =
      (enforce_yahoo_limits cfg.interval cfg.mode cfg.period).2 ++
        (tickerLogs provider writeErr (effectiveConfig cfg) pre ++
         ((processTicker provider writeErr (effectiveConfig cfg) t).1 ++
          tickerLogs provider writeErr (effectiveConfig cfg) post)) := by
  have h2 : (effectiveConfig cfg).tickers = pre ++ t :: post := ht
  simp only [fetch_and_save_csv]
  rw [h2, tickerLogs_append, tickerLogs_cons]

/-- Splitting the pipeline's file list around one distinguished ticker. -/
theorem fetch_files_split (provider : String → HistoryCall → FetchOutcome)
    (writeErr : String → Option String) (cfg : DownloadConfig)
    (pre post : List String) (t : String)
    (ht : cfg.tickers = pre ++ t :: post) :
    (fetch_and_save_csv provider writeErr cfg).2.2 =
      tickerFiles provider writeErr (effectiveConfig cfg) pre ++
        ((processTicker provider writeErr (effectiveConfig cfg) t).2 ++
         tickerFiles provider writeErr (effectiveConfig cfg) post) := by
  have h2 : (effectiveConfig cfg).tickers = pre ++ t :: post := ht
  simp only [fetch_and_save_csv]
  rw [h2, tickerFiles_append, tickerFiles_cons]

/-- Demo provider for concrete witnesses: `BAD` raises, `EMPTY` returns a
zero-row frame, `GONE` returns Python `None`, anything else returns five
rows. -/
def demoProvider : String → HistoryCall → FetchOutcome := fun t _ =>
  if t = "BAD" then .raised "boom"
  else if t = "EMPTY" then .frame 0
  else if t = "GONE" then .noneResult
  else .frame 5

/-- Demo CSV writer that always succeeds. -/
def demoWrite : String → Option String := fun _ => none

/-- Demo configuration exercising a failing, an empty and a blank entry. -/
def demoCfg : DownloadConfig :=
  { tickers := ["AAA", "BAD", "EMPTY", "   ", "BBB"], interval := "1d",
    include_actions := false, auto_adjust := true,
    out_dir := "out", mode := "max" }

/-- C4: a ticker whose provider fetch raises, or whose CSV write raises, is
caught: the pipeline logs exactly one error line naming that ticker, records
no file for it, and the logs and files of all other tickers — in particular
every subsequent one — are untouched. -/
theorem pipeline_isolates_ticker_errors
    (provider : String → HistoryCall → FetchOutcome)
    (writeErr : String → Option String) (cfg : DownloadConfig)
    (pre post : List String) (t msg : String)
    (ht : cfg.tickers = pre ++ t :: post) (hne : pyStrip t ≠ "")
    (hfail :
      provider (pyStrip t) (historyCallFor (effectiveConfig cfg)).1 =
          .raised msg ∨
        ∃ rows, rows ≠ 0 ∧
          provider (pyStrip t) (historyCallFor (effectiveConfig cfg)).1 =
            .frame rows ∧
          writeErr (outFileFor (effectiveConfig cfg) (pyStrip t)
              (historyCallFor (effectiveConfig cfg)).2) = some msg) :
    ∃ e, (e = "❌ Error fetching " ++ pyStrip t ++ ": " ++ msg ∨
          e = "❌ Error saving " ++ pyStrip t ++ ": " ++ msg) ∧
      processTicker provider writeErr (effectiveConfig cfg) t =
        ([fetchingLine (effectiveConfig cfg) (pyStrip t), e], []) ∧
      (fetch_and_save_csv provider writeErr cfg).2.1 =
        (enforce_yahoo_limits cfg.interval cfg.mode cfg.period).2 ++
          (tickerLogs provider writeErr (effectiveConfig cfg) pre ++
           ([fetchingLine (effectiveConfig cfg) (pyStrip t), e] ++
            tickerLogs provider writeErr (effectiveConfig cfg) post)) ∧
      (fetch_and_save_csv provider writeErr cfg).2.2 =
        tickerFiles provider writeErr (effectiveConfig cfg) pre ++
          tickerFiles provider writeErr (effectiveConfig cfg) post := by
  rcases hfail with h | ⟨rows, hr, h, hw⟩
  · refine ⟨_, Or.inl rfl, processTicker_raised _ _ _ _ _ hne h, ?_, ?_⟩
    · rw [fetch_logs_split provider writeErr cfg pre post t ht,
          processTicker_raised _ _ _ _ _ hne h]
    · rw [fetch_files_split provider writeErr cfg pre post t ht,
          processTicker_raised _ _ _ _ _ hne h]
      simp
  · refine ⟨_, Or.inr rfl,
      processTicker_saveError _ _ _ _ _ _ hne h hr hw, ?_, ?_⟩
    · rw [fetch_logs_split provider writeErr cfg pre post t ht,
          processTicker_saveError _ _ _ _ _ _ hne h hr hw]
    · rw [fetch_files_split provider writeErr cfg pre post t ht,
          processTicker_saveError _ _ _ _ _ _ hne h hr hw]
      simp

/-- Witness for C4: in `demoCfg`, ticker `BAD` raises `boom`; the error is
logged once, no file is recorded for it, and the neighbours' contributions
stand. -/
theorem pipeline_isolates_ticker_errors_witness :
    demoCfg.tickers = ["AAA"] ++ "BAD" :: ["EMPTY", "   ", "BBB"] ∧
    pyStrip "BAD" ≠ "" ∧
    demoProvider (pyStrip "BAD")
        (historyCallFor (effectiveConfig demoCfg)).1 = .raised "boom" ∧
    (∃ e, (e = "❌ Error fetching " ++ pyStrip "BAD" ++ ": " ++ "boom" ∨
           e = "❌ Error saving " ++ pyStrip "BAD" ++ ": " ++ "boom") ∧
      processTicker demoProvider demoWrite (effectiveConfig demoCfg) "BAD" =
        ([fetchingLine (effectiveConfig demoCfg) (pyStrip "BAD"), e], []) ∧
      (fetch_and_save_csv demoProvider demoWrite demoCfg).2.1 =
        (enforce_yahoo_limits demoCfg.interval demoCfg.mode demoCfg.period).2 ++
          (tickerLogs demoProvider demoWrite (effectiveConfig demoCfg) ["AAA"] ++
           ([fetchingLine (effectiveConfig demoCfg) (pyStrip "BAD"), e] ++
            tickerLogs demoProvider demoWrite (effectiveConfig demoCfg)
              ["EMPTY", "   ", "BBB"])) ∧
      (fetch_and_save_csv demoProvider demoWrite demoCfg).2.2 =
        tickerFiles demoProvider demoWrite (effectiveConfig demoCfg) ["AAA"] ++
          tickerFiles demoProvider demoWrite (effectiveConfig demoCfg)
            ["EMPTY", "   ", "BBB"]) :=
  ⟨rfl, by decide, by decide,
   pipeline_isolates_ticker_errors demoProvider demoWrite demoCfg
     ["AAA"] ["EMPTY", "   ", "BBB"] "BAD" "boom" rfl (by decide)
     (Or.inl (by decide))⟩

/-- C5: a ticker whose fetch returns `None` or a zero-row series gets exactly
one warning line, no file, and the rest of the batch is untouched. -/
theorem pipeline_warns_on_empty
    (provider : String → HistoryCall → FetchOutcome)
    (writeErr : String → Option String) (cfg : DownloadConfig)
    (pre post : List String) (t : String)
    (ht : cfg.tickers = pre ++ t :: post) (hne : pyStrip t ≠ "")
    (hempty :
      provider (pyStrip t) (historyCallFor (effectiveConfig cfg)).1 =
          .noneResult ∨
        provider (pyStrip t) (historyCallFor (effectiveConfig cfg)).1 =
          .frame 0) :
    processTicker provider writeErr (effectiveConfig cfg) t =
      ([fetchingLine (effectiveConfig cfg) (pyStrip t),
        "⚠️ No data returned for " ++ pyStrip t ++ "."], []) ∧
    (fetch_and_save_csv provider writeErr cfg).2.1 =
      (enforce_yahoo_limits cfg.interval cfg.mode cfg.period).2 ++
        (tickerLogs provider writeErr (effectiveConfig cfg) pre ++
         ([fetchingLine (effectiveConfig cfg) (pyStrip t),
           "⚠️ No data returned for " ++ pyStrip t ++ "."] ++
          tickerLogs provider writeErr (effectiveConfig cfg) post)) ∧
    (fetch_and_save_csv provider writeErr cfg).2.2 =
      tickerFiles provider writeErr (effectiveConfig cfg) pre ++
        tickerFiles provider writeErr (effectiveConfig cfg) post := by
  have hp : processTicker provider writeErr (effectiveConfig cfg) t =
      ([fetchingLine (effectiveConfig cfg) (pyStrip t),
        "⚠️ No data returned for " ++ pyStrip t ++ "."], []) := by
    rcases hempty with h | h
    · exact processTicker_noneResult _ _ _ _ hne h
    · exact processTicker_emptyFrame _ _ _ _ hne h
  refine ⟨hp, ?_, ?_⟩
  · rw [fetch_logs_split provider writeErr cfg pre post t ht, hp]
  · rw [fetch_files_split provider writeErr cfg pre post t ht, hp]
    simp

/-- Witness for C5: in `demoCfg`, ticker `EMPTY` returns a zero-row frame;
one warning, no file, neighbours untouched. -/
theorem pipeline_warns_on_empty_witness :
    demoCfg.tickers = ["AAA", "BAD"] ++ "EMPTY" :: ["   ", "BBB"] ∧
    pyStrip "EMPTY" ≠ "" ∧
    demoProvider (pyStrip "EMPTY")
        (historyCallFor (effectiveConfig demoCfg)).1 = .frame 0 ∧
    (processTicker demoProvider demoWrite (effectiveConfig demoCfg) "EMPTY" =
      ([fetchingLine (effectiveConfig demoCfg) (pyStrip "EMPTY"),
        "⚠️ No data returned for " ++ pyStrip "EMPTY" ++ "."], []) ∧
    (fetch_and_save_csv demoProvider demoWrite demoCfg).2.1 =
      (enforce_yahoo_limits demoCfg.interval demoCfg.mode demoCfg.period).2 ++
        (tickerLogs demoProvider demoWrite (effectiveConfig demoCfg)
           ["AAA", "BAD"] ++
         ([fetchingLine (effectiveConfig demoCfg) (pyStrip "EMPTY"),
           "⚠️ No data returned for " ++ pyStrip "EMPTY" ++ "."] ++
          tickerLogs demoProvider demoWrite (effectiveConfig demoCfg)
            ["   ", "BBB"])) ∧
    (fetch_and_save_csv demoProvider demoWrite demoCfg).2.2 =
      tickerFiles demoProvider demoWrite (effectiveConfig demoCfg)
          ["AAA", "BAD"] ++
        tickerFiles demoProvider demoWrite (effectiveConfig demoCfg)
          ["   ", "BBB"]) :=
  ⟨rfl, by decide, by decide,
   pipeline_warns_on_empty demoProvider demoWrite demoCfg
     ["AAA", "BAD"] ["   ", "BBB"] "EMPTY" rfl (by decide)
     (Or.inr (by decide))⟩

/-- C6: a successfully fetched and saved ticker yields exactly the file
`out_dir / <ticker with '/' replaced by '_'>_<interval>_<tag>.csv` where the
tag is `start_end` in range mode, the period string in period mode and `max`
in max mode; concretely `BBCA.JK`/`1d`/`max` gives `BBCA.JK_1d_max.csv` and a
`BRK/B` name starts with `BRK_B_`. -/
theorem pipeline_output_filename
    (provider : String → HistoryCall → FetchOutcome)
    (writeErr : String → Option String) (cfg : DownloadConfig)
    (t : String) (rows : Nat) (hne : pyStrip t ≠ "")
    (hfetch : provider (pyStrip t)
        (historyCallFor (effectiveConfig cfg)).1 = .frame rows)
    (hr : rows ≠ 0)
    (hw : writeErr (outFileFor (effectiveConfig cfg) (pyStrip t)
        (historyCallFor (effectiveConfig cfg)).2) = none) :
    (processTicker provider writeErr (effectiveConfig cfg) t).2 =
      [(effectiveConfig cfg).out_dir ++ "/" ++
        csvFileName (effectiveConfig cfg).interval (pyStrip t)
          (historyCallFor (effectiveConfig cfg)).2] ∧
    ((effectiveConfig cfg).mode = "range" →
      (historyCallFor (effectiveConfig cfg)).2 =
        pyShowOpt (effectiveConfig cfg).start ++ "_" ++
          pyShowOpt (effectiveConfig cfg).«end») ∧
    (∀ p, (effectiveConfig cfg).mode = "period" →
      (effectiveConfig cfg).period = some p → p ≠ "" →
      (historyCallFor (effectiveConfig cfg)).2 = p) ∧
    ((effectiveConfig cfg).mode = "max" →
      (historyCallFor (effectiveConfig cfg)).2 = "max") ∧
    csvFileName "1d" "BBCA.JK" "max" = "BBCA.JK_1d_max.csv" ∧
    (∀ interval tag, ∃ r,
      csvFileName interval "BRK/B" tag = "BRK_B_" ++ r) := by
  refine ⟨?_, ?_, ?_, ?_, by decide, ?_⟩
  · rw [processTicker_saved _ _ _ _ _ hne hfetch hr hw]
    rfl
  · intro h
    simp [historyCallFor, h]
  · intro p hm hp hpne
    rw [historyCallFor, if_neg, if_pos hm]
    · simp [effectivePeriod, hp, hpne]
    · rw [hm]
      decide
  · intro h
    rw [historyCallFor, if_neg, if_neg]
    · rw [h]; decide
    · rw [h]; decide
  · intro interval tag
    refine ⟨interval ++ "_" ++ tag ++ ".csv", ?_⟩
    have hs : replaceSlash "BRK/B" = "BRK_B" := by decide
    rw [csvFileName, hs]
    rw [show ("BRK_B" : String) = "BRK_B" ++ "" from rfl]
    simp [String.append_assoc]

/-- Witness for C6: ticker `BBCA.JK` in `demoCfg`-like max-mode settings. -/
theorem pipeline_output_filename_witness :
    pyStrip "BBCA.JK" ≠ "" ∧
    demoProvider (pyStrip "BBCA.JK")
        (historyCallFor (effectiveConfig demoCfg)).1 = .frame 5 ∧
    demoWrite (outFileFor (effectiveConfig demoCfg) (pyStrip "BBCA.JK")
        (historyCallFor (effectiveConfig demoCfg)).2) = none ∧
    (processTicker demoProvider demoWrite (effectiveConfig demoCfg)
        "BBCA.JK").2 =
      [(effectiveConfig demoCfg).out_dir ++ "/" ++
        csvFileName (effectiveConfig demoCfg).interval (pyStrip "BBCA.JK")
          (historyCallFor (effectiveConfig demoCfg)).2] ∧
    ((effectiveConfig demoCfg).mode = "max" →
      (historyCallFor (effectiveConfig demoCfg)).2 = "max") ∧
    csvFileName "1d" "BBCA.JK" "max" = "BBCA.JK_1d_max.csv" :=
  ⟨by decide, by decide, rfl,
   (pipeline_output_filename demoProvider demoWrite demoCfg "BBCA.JK" 5
      (by decide) (by decide) (by decide) rfl).1,
   (pipeline_output_filename demoProvider demoWrite demoCfg "BBCA.JK" 5
      (by decide) (by decide) (by decide) rfl).2.2.2.1,
   (pipeline_output_filename demoProvider demoWrite demoCfg "BBCA.JK" 5
      (by decide) (by decide) (by decide) rfl).2.2.2.2.1⟩

/-- C7: an entry that is empty after trimming contributes nothing: no fetch
outcome, no log line, no file, and the run equals the run without it. -/
theorem pipeline_skips_blank_tickers
    (provider : String → HistoryCall → FetchOutcome)
    (writeErr : String → Option String) (cfg : DownloadConfig)
    (pre post : List String) (t : String)
    (ht : cfg.tickers = pre ++ t :: post) (hb : pyStrip t = "") :
    processTicker provider writeErr (effectiveConfig cfg) t = ([], []) ∧
    (fetch_and_save_csv provider writeErr cfg).2.1 =
      (enforce_yahoo_limits cfg.interval cfg.mode cfg.period).2 ++
        (tickerLogs provider writeErr (effectiveConfig cfg) pre ++
         tickerLogs provider writeErr (effectiveConfig cfg) post) ∧
    (fetch_and_save_csv provider writeErr cfg).2.2 =
      tickerFiles provider writeErr (effectiveConfig cfg) pre ++
        tickerFiles provider writeErr (effectiveConfig cfg) post := by
  refine ⟨processTicker_blank _ _ _ _ hb, ?_, ?_⟩
  · rw [fetch_logs_split provider writeErr cfg pre post t ht,
        processTicker_blank _ _ _ _ hb]
    simp
  · rw [fetch_files_split provider writeErr cfg pre post t ht,
        processTicker_blank _ _ _ _ hb]
    simp

/-- Witness for C7: the whitespace-only entry of `demoCfg`. -/
theorem pipeline_skips_blank_tickers_witness :
    demoCfg.tickers = ["AAA", "BAD", "EMPTY"] ++ "   " :: ["BBB"] ∧
    pyStrip "   " = "" ∧
    (processTicker demoProvider demoWrite (effectiveConfig demoCfg) "   " =
      ([], []) ∧
    (fetch_and_save_csv demoProvider demoWrite demoCfg).2.1 =
      (enforce_yahoo_limits demoCfg.interval demoCfg.mode demoCfg.period).2 ++
        (tickerLogs demoProvider demoWrite (effectiveConfig demoCfg)
           ["AAA", "BAD", "EMPTY"] ++
         tickerLogs demoProvider demoWrite (effectiveConfig demoCfg) ["BBB"]) ∧
    (fetch_and_save_csv demoProvider demoWrite demoCfg).2.2 =
      tickerFiles demoProvider demoWrite (effectiveConfig demoCfg)
          ["AAA", "BAD", "EMPTY"] ++
        tickerFiles demoProvider demoWrite (effectiveConfig demoCfg) ["BBB"]) :=
  ⟨rfl, by decide,
   pipeline_skips_blank_tickers demoProvider demoWrite demoCfg
     ["AAA", "BAD", "EMPTY"] ["BBB"] "   " rfl (by decide)⟩

/-- C8: a pipeline run rewrites only `mode` and `period`, via the Limit
Enforcer, once; every other configuration field is unchanged. -/
theorem pipeline_mutates_only_mode_period
    (provider : String → HistoryCall → FetchOutcome)
    (writeErr : String → Option String) (cfg : DownloadConfig) :
    (fetch_and_save_csv provider writeErr cfg).1.tickers = cfg.tickers ∧
    (fetch_and_save_csv provider writeErr cfg).1.interval = cfg.interval ∧
    (fetch_and_save_csv provider writeErr cfg).1.include_actions =
      cfg.include_actions ∧
    (fetch_and_save_csv provider writeErr cfg).1.auto_adjust =
      cfg.auto_adjust ∧
    (fetch_and_save_csv provider writeErr cfg).1.out_dir = cfg.out_dir ∧
    (fetch_and_save_csv provider writeErr cfg).1.start = cfg.start ∧
    (fetch_and_save_csv provider writeErr cfg).1.«end» = cfg.«end» ∧
    (fetch_and_save_csv provider writeErr cfg).1.mode =
      (enforce_yahoo_limits cfg.interval cfg.mode cfg.period).1.1 ∧
    (fetch_and_save_csv provider writeErr cfg).1.period =
      (enforce_yahoo_limits cfg.interval cfg.mode cfg.period).1.2 :=
  ⟨rfl, rfl, rfl, rfl, rfl, rfl, rfl, rfl, rfl⟩

/-- C9: when the effective mode is `period` and the effective period is
`None` or empty, every provider call carries period `1mo` and the output
filename tag is `1mo`. -/
theorem pipeline_defaults_period_1mo (cfg : DownloadConfig)
    (hm : (effectiveConfig cfg).mode = "period")
    (hp : (effectiveConfig cfg).period = none ∨
      (effectiveConfig cfg).period = some "") :
    historyCallFor (effectiveConfig cfg) =
      (.byPeriod "1mo" cfg.interval cfg.include_actions cfg.auto_adjust,
       "1mo") ∧
    ∀ (provider : String → HistoryCall → FetchOutcome)
      (writeErr : String → Option String) (t : String) (rows : Nat),
      pyStrip t ≠ "" →
      provider (pyStrip t)
          (.byPeriod "1mo" cfg.interval cfg.include_actions cfg.auto_adjust) =
        .frame rows →
      rows ≠ 0 →
      writeErr (outFileFor (effectiveConfig cfg) (pyStrip t) "1mo") = none →
      (processTicker provider writeErr (effectiveConfig cfg) t).2 =
        [(effectiveConfig cfg).out_dir ++ "/" ++
          csvFileName cfg.interval (pyStrip t) "1mo"] := by
  have hep : effectivePeriod (effectiveConfig cfg) = "1mo" := by
    rcases hp with h | h <;> simp [effectivePeriod, h]
  have hcall : historyCallFor (effectiveConfig cfg) =
      (.byPeriod "1mo" cfg.interval cfg.include_actions cfg.auto_adjust,
       "1mo") := by
    rw [historyCallFor, if_neg, if_pos hm, hep]
    · rfl
    · rw [hm]
      decide
  refine ⟨hcall, ?_⟩
  intro provider writeErr t rows hne hf hr hw
  have h1 : provider (pyStrip t) (historyCallFor (effectiveConfig cfg)).1 =
      .frame rows := by
    rw [hcall]
    exact hf
  have h2 : writeErr (outFileFor (effectiveConfig cfg) (pyStrip t)
      (historyCallFor (effectiveConfig cfg)).2) = none := by
    rw [hcall]
    exact hw
  rw [processTicker_saved _ _ _ _ _ hne h1 hr h2, hcall]
  rfl

/-- Demo configuration for C9: period mode with an absent period and a
non-intraday interval, so the Limit Enforcer leaves it alone. -/
def demoCfgPeriod : DownloadConfig :=
  { tickers := ["AAA"], interval := "1d", include_actions := false,
    auto_adjust := true, out_dir := "out", mode := "period" }

/-- Witness for C9 on `demoCfgPeriod` and ticker `AAA`. -/
theorem pipeline_defaults_period_1mo_witness :
    (effectiveConfig demoCfgPeriod).mode = "period" ∧
    (effectiveConfig demoCfgPeriod).period = none ∧
    historyCallFor (effectiveConfig demoCfgPeriod) =
      (.byPeriod "1mo" demoCfgPeriod.interval demoCfgPeriod.include_actions
         demoCfgPeriod.auto_adjust, "1mo") ∧
    (processTicker demoProvider demoWrite (effectiveConfig demoCfgPeriod)
        "AAA").2 =
      [(effectiveConfig demoCfgPeriod).out_dir ++ "/" ++
        csvFileName demoCfgPeriod.interval (pyStrip "AAA") "1mo"] :=
  ⟨by decide, by decide,
   (pipeline_defaults_period_1mo demoCfgPeriod (by decide)
      (Or.inl (by decide))).1,
   (pipeline_defaults_period_1mo demoCfgPeriod (by decide)
      (Or.inl (by decide))).2 demoProvider demoWrite "AAA" 5
     (by decide) (by decide) (by decide) rfl⟩
